import Mathlib

/-!
Verification of the tracked-secret index layer of ape-keyring
(src/ape_keyring/storage.py), embedded shallowly.

The mutable state the module acts on has two parts, both shared by every
`SecretStorage` instance:
* the optional contents of the side-file `~/.ape/keyring/data.json`, a JSON
  object whose only entry ever written by the code is "keys" mapped to a list
  of strings;
* the OS credential store for the fixed service name, modelled as an
  association list from key names to secret values.

`keyring.delete_password` may fail; which failure it raises is modelled by an
abstract backend parameter so that the error-handling paths of the source can
be examined for every possible outcome. The standard backend raises
`PasswordDeleteError` exactly when no entry exists for the key.

Operations additionally return the list of OS-store calls they performed, so
that claims such as "no OS-store operation is attempted" are statable.
-/

namespace ApeKeyring

/-- SERVICE_NAME from storage.py; all OS-store calls use this fixed service,
so the service argument is left implicit in the model. -/
def SERVICE_NAME : String := "ape-keyring"

/-- ACCOUNTS_TRACKER_KEY from storage.py. -/
def ACCOUNTS_TRACKER_KEY : String := "ape-keyring-accounts"

/-- SECRETS_TRACKER_KEY from storage.py. -/
def SECRETS_TRACKER_KEY : String := "ape-keyring-secrets"

/-- The failures keyring.delete_password can raise: PasswordDeleteError
(no such entry), AssertionError (an assertion-style backend failure, also
caught by storage.py), or any other backend failure (keyringError). -/
inductive KeyringErr
  | passwordDeleteError
  | assertionError
  | keyringError
deriving DecidableEq, Repr

/-- The OS credential store under the fixed service name. -/
abbrev OsStore := List (String × String)

/-- One call made to the OS keyring API. -/
inductive OsOp
  | get (key : String)
  | set (key secret : String)
  | del (key : String)
deriving DecidableEq, Repr

/-- First-match association-list lookup (dict/get semantics). -/
def lookupStr {α : Type} : List (String × α) → String → Option α
  | [], _ => none
  | p :: rest, key => if p.1 = key then some p.2 else lookupStr rest key

/-- Dict update: any previous binding of the key is replaced by the value. -/
def dictSet {α : Type} (d : List (String × α)) (key : String) (value : α) :
    List (String × α) :=
  (d.filter fun p => p.1 ≠ key) ++ [(key, value)]

/-- Dict removal of every binding of the key. -/
def eraseKey {α : Type} (d : List (String × α)) (key : String) :
    List (String × α) :=
  d.filter fun p => p.1 ≠ key

/-- keyring.get_password for the fixed service. -/
def keyring_get (os : OsStore) (key : String) : Option String :=
  lookupStr os key

/-- keyring.set_password for the fixed service: overwrites any existing
value under the key. -/
def keyring_set (os : OsStore) (key secret : String) : OsStore :=
  dictSet os key secret

/-- keyring.delete_password for the fixed service: removes the entry, and
raises PasswordDeleteError when no entry exists for the key. -/
def keyring_delete (os : OsStore) (key : String) : Except KeyringErr OsStore :=
  if (lookupStr os key).isSome then Except.ok (eraseKey os key)
  else Except.error KeyringErr.passwordDeleteError

/-- Abstract outcome of one keyring.delete_password call, as a function of
the key and the current store. -/
def DeleteBackend : Type := String → OsStore → Except KeyringErr OsStore

/-- The standard backend: keyring_delete. -/
def stdBackend : DeleteBackend := fun key os => keyring_delete os key

/-- The state storage.py acts on: the contents of data.json when that file
exists, and the OS credential store. -/
structure World where
  dataFile : Option (List (String × List String))
  os : OsStore
deriving DecidableEq

/-- _get_secret from storage.py: forwards to keyring.get_password (the
KeyError guard in the source only turns an exception into None, which the
Option result type already expresses). -/
def _get_secret (os : OsStore) (key : String) : Option String :=
  keyring_get os key

/-- _set_secret from storage.py: silently returns when key or secret is
empty, otherwise writes the value with keyring.set_password. Returns the
resulting store and the OS calls performed. -/
def _set_secret (os : OsStore) (key secret : String) : OsStore × List OsOp :=
  if key = "" ∨ secret = "" then (os, [])
  else (keyring_set os key secret, [OsOp.set key secret])

/-- _delete_secret from storage.py: returns False for the empty key without
calling the OS store; otherwise calls keyring.delete_password once, turning
PasswordDeleteError and AssertionError into a False result (the source
debug-logs them) and propagating every other failure. Returns the resulting
store, the Bool result or the propagated error, and the OS calls
performed. -/
def _delete_secret (b : DeleteBackend) (os : OsStore) (key : String) :
    OsStore × Except KeyringErr Bool × List OsOp :=
  if key = "" then (os, Except.ok false, [])
  else
    match b key os with
    | Except.ok os' => (os', Except.ok true, [OsOp.del key])
    | Except.error KeyringErr.passwordDeleteError =>
        (os, Except.ok false, [OsOp.del key])
    | Except.error KeyringErr.assertionError =>
        (os, Except.ok false, [OsOp.del key])
    | Except.error e => (os, Except.error e, [OsOp.del key])

/-- A SecretStorage instance; its only field is the tracker key passed to
the constructor. -/
structure SecretStorage where
  _tracker_key : String
deriving DecidableEq

/-- account_storage = SecretStorage(ACCOUNTS_TRACKER_KEY). -/
def account_storage : SecretStorage := ⟨ACCOUNTS_TRACKER_KEY⟩

/-- secret_storage = SecretStorage(SECRETS_TRACKER_KEY). -/
def secret_storage : SecretStorage := ⟨SECRETS_TRACKER_KEY⟩

namespace SecretStorage

/-- plugin_data property: the parsed contents of data.json, or the empty
dict when the file does not exist. Note the path is the same for every
instance, so the data does not depend on the instance. -/
def plugin_data (_self : SecretStorage) (w : World) :
    List (String × List String) :=
  w.dataFile.getD []

/-- keys property: plugin_data.get("keys", []). It reads the shared file
under the literal entry "keys", independent of the instance tracker key. -/
def keys (self : SecretStorage) (w : World) : List String :=
  (lookupStr (self.plugin_data w) "keys").getD []

/-- _store_public_data: rewrites data.json with the dict obtained from
plugin_data by binding the given entry to the given value. -/
def _store_public_data (self : SecretStorage) (w : World) (key : String)
    (value : List String) : World :=
  { w with dataFile := some (dictSet (self.plugin_data w) key value) }

/-- get_secret: None when the key is not tracked, else the OS-store value. -/
def get_secret (self : SecretStorage) (w : World) (key : String) :
    Option String :=
  if key ∈ self.keys w then _get_secret w.os key else none

/-- store_secret: when the key is untracked the index gains the key and is
persisted, then _set_secret writes the value (a no-op on empty key or
secret). -/
def store_secret (self : SecretStorage) (w : World) (key secret : String) :
    World × List OsOp :=
  let w1 := if key ∈ self.keys w then w
            else self._store_public_data w "keys" (self.keys w ++ [key])
  let r := _set_secret w1.os key secret
  ({ w1 with os := r.1 }, r.2)

/-- delete_secret: when the key is tracked the index drops every occurrence
of it and is persisted, then _delete_secret is attempted and its result
returned. -/
def delete_secret (self : SecretStorage) (b : DeleteBackend) (w : World)
    (key : String) : World × Except KeyringErr Bool × List OsOp :=
  let w1 := if key ∈ self.keys w
            then self._store_public_data w "keys"
                   ((self.keys w).filter fun k => k ≠ key)
            else w
  let r := _delete_secret b w1.os key
  ({ w1 with os := r.1 }, r.2.1, r.2.2)

/-- The loop of delete_all: _delete_secret for each tracked key in order; a
propagated failure aborts the loop. -/
def delete_all_loop (b : DeleteBackend) :
    List String → OsStore → OsStore × Except KeyringErr Unit × List OsOp
  | [], os => (os, Except.ok (), [])
  | key :: rest, os =>
    match _delete_secret b os key with
    | (os', Except.ok _, tr) =>
      let r := delete_all_loop b rest os'
      (r.1, r.2.1, tr ++ r.2.2)
    | (os', Except.error e, tr) => (os', Except.error e, tr)

/-- delete_all: _delete_secret for every tracked key, then for the instance
tracker key. The data file is never touched. -/
def delete_all (self : SecretStorage) (b : DeleteBackend) (w : World) :
    World × Except KeyringErr Unit × List OsOp :=
  match delete_all_loop b (self.keys w) w.os with
  | (os1, Except.ok _, tr) =>
    let r := _delete_secret b os1 self._tracker_key
    ({ w with os := r.1 },
     (match r.2.1 with
      | Except.ok _ => Except.ok ()
      | Except.error e => Except.error e),
     tr ++ r.2.2)
  | (os1, Except.error e, tr) => ({ w with os := os1 }, Except.error e, tr)

/-- The sequence produced by iterating an instance: for each tracked key,
the (key, secret) pair when get_secret yields a truthy (non-None, non-empty)
value, skipped otherwise. -/
def iterPairs (self : SecretStorage) (w : World) : List (String × String) :=
  (self.keys w).filterMap fun key =>
    match self.get_secret w key with
    | some secret => if secret = "" then none else some (key, secret)
    | none => none

end SecretStorage

/-! Helper lemmas about the dictionary operations and the derived state. -/

theorem lookupStr_dictSet_self {α : Type} (d : List (String × α)) (key : String)
    (v : α) : lookupStr (dictSet d key v) key = some v := by
  unfold dictSet
  induction d with
  | nil => simp [lookupStr]
  | cons p rest ih =>
    by_cases h : p.1 = key
    · simpa [List.filter_cons, h] using ih
    · simpa [List.filter_cons, h, lookupStr] using ih

theorem lookupStr_eraseKey_self {α : Type} (d : List (String × α))
    (key : String) : lookupStr (eraseKey d key) key = none := by
  unfold eraseKey
  induction d with
  | nil => rfl
  | cons p rest ih =>
    by_cases h : p.1 = key
    · simpa [List.filter_cons, h] using ih
    · simpa [List.filter_cons, h, lookupStr] using ih

theorem keys_store_public_data (self : SecretStorage) (w : World)
    (v : List String) : self.keys (self._store_public_data w "keys" v) = v := by
  simp [SecretStorage.keys, SecretStorage._store_public_data,
        SecretStorage.plugin_data, lookupStr_dictSet_self]

theorem os_store_public_data (self : SecretStorage) (w : World) (k : String)
    (v : List String) : (self._store_public_data w k v).os = w.os := rfl

theorem keys_update_os (self : SecretStorage) (w : World) (os : OsStore) :
    self.keys { w with os := os } = self.keys w := rfl

theorem keys_store_secret (self : SecretStorage) (w : World)
    (key secret : String) :
    self.keys (self.store_secret w key secret).1 =
      if key ∈ self.keys w then self.keys w else self.keys w ++ [key] := by
  by_cases h : key ∈ self.keys w <;>
    simp [SecretStorage.store_secret, h, keys_store_public_data, keys_update_os]

theorem os_store_secret (self : SecretStorage) (w : World) (key secret : String)
    (hk : key ≠ "") (hs : secret ≠ "") :
    (self.store_secret w key secret).1.os = dictSet w.os key secret := by
  have hcond : ¬(key = "" ∨ secret = "") := by
    rintro (h | h) <;> [exact hk h; exact hs h]
  by_cases h : key ∈ self.keys w <;>
    simp [SecretStorage.store_secret, h, _set_secret, hcond, keyring_set,
          os_store_public_data]

theorem keys_delete_secret (self : SecretStorage) (b : DeleteBackend)
    (w : World) (key : String) :
    self.keys (self.delete_secret b w key).1 =
      if key ∈ self.keys w then (self.keys w).filter (fun k => k ≠ key)
      else self.keys w := by
  by_cases h : key ∈ self.keys w <;>
    simp [SecretStorage.delete_secret, h, keys_store_public_data, keys_update_os]

theorem not_mem_keys_delete_secret (self : SecretStorage) (b : DeleteBackend)
    (w : World) (key : String) :
    key ∉ self.keys (self.delete_secret b w key).1 := by
  rw [keys_delete_secret]
  by_cases h : key ∈ self.keys w
  · simp [h]
  · simp only [if_neg h]
    exact h

theorem lookup_os_delete_secret_std (self : SecretStorage) (w : World)
    (key : String) (hk : key ≠ "") :
    lookupStr ((self.delete_secret stdBackend w key).1).os key = none := by
  have hos : ∀ w1 : World,
      lookupStr (_delete_secret stdBackend w1.os key).1 key = none := by
    intro w1
    unfold _delete_secret stdBackend keyring_delete
    rw [if_neg hk]
    by_cases hsome : (lookupStr w1.os key).isSome
    · simp [hsome, lookupStr_eraseKey_self]
    · rw [if_neg hsome]
      exact Option.not_isSome_iff_eq_none.mp hsome
  by_cases h : key ∈ self.keys w <;>
    simp [SecretStorage.delete_secret, h, hos]

theorem deleteSecret_untracked_absent_result (self : SecretStorage)
    (w : World) (key : String) (hk : key ≠ "")
    (hnm : key ∉ self.keys w) (hnone : lookupStr w.os key = none) :
    (self.delete_secret stdBackend w key).2.1 = Except.ok false := by
  simp only [SecretStorage.delete_secret, if_neg hnm]
  simp [_delete_secret, stdBackend, keyring_delete, if_neg hk, hnone]

/-- C1 counterexample: from the empty state, store_secret("a", "") raises no
error but changes keys() from the empty list to ["a"], so the call is not a
no-op on the tracked index. -/
theorem storeSecret_empty_noop_counterexample :
    secret_storage.keys ((secret_storage.store_secret ⟨none, []⟩ "a" "").1) = ["a"] ∧
    secret_storage.keys ⟨none, []⟩ = [] :=
  ⟨rfl, rfl⟩

/-- C1 (amended): when key or secret is empty, store_secret raises no error
and performs no OS-store write (the OS store is unchanged and no OS call is
made), but the index is left unchanged only when the key is already tracked;
an untracked key — the empty string included — is appended to keys(). -/
theorem storeSecret_empty_input_behavior (self : SecretStorage) (w : World)
    (key secret : String) (h : key = "" ∨ secret = "") :
    (self.store_secret w key secret).1.os = w.os ∧
    (self.store_secret w key secret).2 = [] ∧
    self.keys (self.store_secret w key secret).1 =
      (if key ∈ self.keys w then self.keys w
       else self.keys w ++ [key]) := by
  refine ⟨?_, ?_, keys_store_secret self w key secret⟩ <;>
    by_cases hk : key ∈ self.keys w <;>
      simp [SecretStorage.store_secret, hk, _set_secret, h, os_store_public_data]

/-- C1 witness for the amended theorem at the input ("b", ""). -/
theorem storeSecret_empty_input_behavior_witness :
    (secret_storage.store_secret ⟨none, []⟩ "b" "").1.os = (⟨none, []⟩ : World).os ∧
    (secret_storage.store_secret ⟨none, []⟩ "b" "").2 = [] ∧
    secret_storage.keys (secret_storage.store_secret ⟨none, []⟩ "b" "").1 =
      (if "b" ∈ secret_storage.keys ⟨none, []⟩ then secret_storage.keys ⟨none, []⟩
       else secret_storage.keys ⟨none, []⟩ ++ ["b"]) :=
  storeSecret_empty_input_behavior secret_storage ⟨none, []⟩ "b" "" (Or.inr rfl)

/-- C2: at the state whose index (in data.json) tracks "a" and whose OS store
holds ("a", "v"), delete_all with the standard backend empties the OS store
and get_secret "a" does return none afterwards, but the data file is left
untouched, so keys() still returns ["a"] — not the empty set the claim
requires, and the index's backing file is not deleted. -/
theorem deleteAll_keeps_index_bug :
    secret_storage.keys (secret_storage.delete_all stdBackend
      ⟨some [("keys", ["a"])], [("a", "v")]⟩).1 = ["a"] ∧
    (secret_storage.delete_all stdBackend
      ⟨some [("keys", ["a"])], [("a", "v")]⟩).1.dataFile = some [("keys", ["a"])] ∧
    (secret_storage.delete_all stdBackend
      ⟨some [("keys", ["a"])], [("a", "v")]⟩).1.os = [] ∧
    secret_storage.get_secret (secret_storage.delete_all stdBackend
      ⟨some [("keys", ["a"])], [("a", "v")]⟩).1 "a" = none :=
  ⟨rfl, rfl, rfl, rfl⟩

/-- C3: from the empty state, storing ("a", "v") through the accounts
instance makes "a" appear in the secrets instance's keys(): the two
instances share one data.json and one "keys" entry, so the index is not
maintained per namespace. -/
theorem sharedIndex_across_instances_bug :
    secret_storage.keys (account_storage.store_secret ⟨none, []⟩ "a" "v").1 = ["a"] ∧
    secret_storage.keys ⟨none, []⟩ = [] :=
  ⟨rfl, rfl⟩

/-- C4: for non-empty key and secret, after store_secret the key is tracked
and get_secret returns the stored secret. -/
theorem storeSecret_tracks_and_stores (self : SecretStorage) (w : World)
    (key secret : String) (hk : key ≠ "") (hs : secret ≠ "") :
    key ∈ self.keys (self.store_secret w key secret).1 ∧
    self.get_secret (self.store_secret w key secret).1 key = some secret := by
  have hmem : key ∈ self.keys (self.store_secret w key secret).1 := by
    rw [keys_store_secret]
    by_cases h : key ∈ self.keys w <;> simp [h]
  refine ⟨hmem, ?_⟩
  rw [SecretStorage.get_secret, if_pos hmem, _get_secret, keyring_get,
      os_store_secret self w key secret hk hs, lookupStr_dictSet_self]

/-- C4 witness at the input ("a", "v") from the empty state. -/
theorem storeSecret_tracks_and_stores_witness :
    "a" ∈ secret_storage.keys (secret_storage.store_secret ⟨none, []⟩ "a" "v").1 ∧
    secret_storage.get_secret
      (secret_storage.store_secret ⟨none, []⟩ "a" "v").1 "a" = some "v" :=
  storeSecret_tracks_and_stores secret_storage ⟨none, []⟩ "a" "v"
    (by decide) (by decide)

/-- C5: after delete_secret the key is no longer tracked and get_secret
returns none, whatever the backend outcome of the OS delete; and repeating
delete_secret on the same key with the standard backend does not fail — the
second call returns the False indicator instead of an error. -/
theorem deleteSecret_untracks_and_idempotent (self : SecretStorage)
    (b : DeleteBackend) (w : World) (key : String) :
    key ∉ self.keys (self.delete_secret b w key).1 ∧
    self.get_secret (self.delete_secret b w key).1 key = none ∧
    (self.delete_secret stdBackend
      (self.delete_secret stdBackend w key).1 key).2.1 = Except.ok false := by
  refine ⟨not_mem_keys_delete_secret self b w key, ?_, ?_⟩
  · rw [SecretStorage.get_secret,
        if_neg (not_mem_keys_delete_secret self b w key)]
  · by_cases hk : key = ""
    · subst hk
      by_cases h : "" ∈ self.keys (self.delete_secret stdBackend w "").1 <;>
        simp [SecretStorage.delete_secret, _delete_secret, h]
    · exact deleteSecret_untracked_absent_result self
        (self.delete_secret stdBackend w key).1 key hk
        (not_mem_keys_delete_secret self stdBackend w key)
        (lookup_os_delete_secret_std self w key hk)

/-- C6: get_secret returns none for an untracked key regardless of what the
OS store holds under that name, and for a tracked key forwards to the OS
store and returns whatever it returns — an Option value, never an error. -/
theorem getSecret_index_authoritative (self : SecretStorage) (w : World)
    (key : String) :
    (key ∉ self.keys w → self.get_secret w key = none) ∧
    (key ∈ self.keys w → self.get_secret w key = lookupStr w.os key) := by
  constructor
  · intro h
    rw [SecretStorage.get_secret, if_neg h]
  · intro h
    rw [SecretStorage.get_secret, if_pos h]
    rfl

/-- C6 witness: with the index tracking only "a" while the OS store holds
only ("b", "x"), the untracked "b" reads none despite its OS value, and the
tracked "a" forwards to the store (which has nothing, tolerated as none). -/
theorem getSecret_index_authoritative_witness :
    secret_storage.get_secret ⟨some [("keys", ["a"])], [("b", "x")]⟩ "b" = none ∧
    secret_storage.get_secret ⟨some [("keys", ["a"])], [("b", "x")]⟩ "a" =
      lookupStr (⟨some [("keys", ["a"])], [("b", "x")]⟩ : World).os "a" :=
  ⟨(getSecret_index_authoritative secret_storage
      ⟨some [("keys", ["a"])], [("b", "x")]⟩ "b").1 (by decide),
   (getSecret_index_authoritative secret_storage
      ⟨some [("keys", ["a"])], [("b", "x")]⟩ "a").2 (by decide)⟩

/-- C7 counterexample: a backend failure that is an AssertionError — not a
"no such entry" report — is absorbed by _delete_secret and surfaced as a
False result instead of propagating to the caller. -/
theorem assertionError_absorbed_counterexample :
    (_delete_secret (fun _ _ => Except.error KeyringErr.assertionError)
      [] "k").2.1 = Except.ok false ∧
    (_delete_secret (fun _ _ => Except.error KeyringErr.assertionError)
      [] "k").2.1 ≠ Except.error KeyringErr.assertionError :=
  ⟨rfl, fun h => Except.noConfusion h⟩

/-- C7 (amended): for a non-empty key exactly one OS delete call is made (no
retries); a PasswordDeleteError (entry not found) outcome and an
AssertionError outcome are both absorbed and surfaced only as a False
result, a successful outcome yields True, every other failure propagates
uncaught, and delete_secret passes the absorbed False indicator through to
its caller. -/
theorem deleteErrors_handling (self : SecretStorage) (b : DeleteBackend)
    (os : OsStore) (w : World) (key : String) (hk : key ≠ "") :
    (_delete_secret b os key).2.2 = [OsOp.del key] ∧
    (b key os = Except.error KeyringErr.passwordDeleteError →
      _delete_secret b os key = (os, Except.ok false, [OsOp.del key])) ∧
    (b key os = Except.error KeyringErr.assertionError →
      _delete_secret b os key = (os, Except.ok false, [OsOp.del key])) ∧
    (b key os = Except.error KeyringErr.keyringError →
      _delete_secret b os key =
        (os, Except.error KeyringErr.keyringError, [OsOp.del key])) ∧
    (∀ os2, b key os = Except.ok os2 →
      _delete_secret b os key = (os2, Except.ok true, [OsOp.del key])) ∧
    (key ∉ self.keys w →
      b key w.os = Except.error KeyringErr.passwordDeleteError →
      (self.delete_secret b w key).2.1 = Except.ok false) := by
  refine ⟨?_, ?_, ?_, ?_, ?_, ?_⟩
  · unfold _delete_secret
    rw [if_neg hk]
    cases hb : b key os with
    | ok os2 => rfl
    | error e => cases e <;> rfl
  · intro hb
    unfold _delete_secret
    rw [if_neg hk, hb]
  · intro hb
    unfold _delete_secret
    rw [if_neg hk, hb]
  · intro hb
    unfold _delete_secret
    rw [if_neg hk, hb]
  · intro os2 hb
    unfold _delete_secret
    rw [if_neg hk, hb]
  · intro hnm hb
    simp only [SecretStorage.delete_secret, if_neg hnm]
    unfold _delete_secret
    rw [if_neg hk, hb]

/-- C7 witness: with a backend reporting "no such entry", the single delete
call for key "k" on the empty store is absorbed as a False result. -/
theorem deleteErrors_handling_witness :
    _delete_secret (fun _ _ => Except.error KeyringErr.passwordDeleteError)
      [] "k" = ([], Except.ok false, [OsOp.del "k"]) :=
  (deleteErrors_handling secret_storage
    (fun _ _ => Except.error KeyringErr.passwordDeleteError) [] ⟨none, []⟩ "k"
    (by decide)).2.1 rfl

/-- C8: a duplicate-free index stays duplicate-free under store_secret and
delete_secret; storing the same non-empty key twice with non-empty values
leaves it tracked exactly once, and the second value wins. -/
theorem index_nodup_preserved (self : SecretStorage) (b : DeleteBackend)
    (w : World) (key secret v1 v2 : String) (hnd : (self.keys w).Nodup)
    (hk : key ≠ "") (_h1 : v1 ≠ "") (h2 : v2 ≠ "") :
    (self.keys (self.store_secret w key secret).1).Nodup ∧
    (self.keys (self.delete_secret b w key).1).Nodup ∧
    (self.keys (self.store_secret
      (self.store_secret w key v1).1 key v2).1).count key = 1 ∧
    self.get_secret (self.store_secret
      (self.store_secret w key v1).1 key v2).1 key = some v2 := by
  have hstore : ∀ s : String,
      (self.keys (self.store_secret w key s).1).Nodup := by
    intro s
    rw [keys_store_secret]
    by_cases h : key ∈ self.keys w
    · simpa [h] using hnd
    · rw [if_neg h, List.nodup_append]
      exact ⟨hnd, List.nodup_singleton key,
             fun a ha hab => h (List.mem_singleton.mp hab ▸ ha)⟩
  have hmem1 : key ∈ self.keys (self.store_secret w key v1).1 := by
    rw [keys_store_secret]
    by_cases h : key ∈ self.keys w <;> simp [h]
  have hkeys2 : self.keys (self.store_secret
      (self.store_secret w key v1).1 key v2).1 =
      self.keys (self.store_secret w key v1).1 := by
    rw [keys_store_secret, if_pos hmem1]
  refine ⟨hstore secret, ?_, ?_, ?_⟩
  · rw [keys_delete_secret]
    by_cases h : key ∈ self.keys w
    · rw [if_pos h]
      exact hnd.filter _
    · rw [if_neg h]
      exact hnd
  · rw [hkeys2]
    exact List.count_eq_one_of_mem (hstore v1) hmem1
  · rw [SecretStorage.get_secret, if_pos (hkeys2.symm ▸ hmem1), _get_secret,
        keyring_get, os_store_secret _ _ key v2 hk h2, lookupStr_dictSet_self]

/-- C8 witness at the empty state, storing "k" with "x" then "y". -/
theorem index_nodup_preserved_witness :
    (secret_storage.keys (secret_storage.store_secret ⟨none, []⟩ "k" "s").1).Nodup ∧
    (secret_storage.keys
      (secret_storage.delete_secret stdBackend ⟨none, []⟩ "k").1).Nodup ∧
    (secret_storage.keys (secret_storage.store_secret
      (secret_storage.store_secret ⟨none, []⟩ "k" "x").1 "k" "y").1).count "k" = 1 ∧
    secret_storage.get_secret (secret_storage.store_secret
      (secret_storage.store_secret ⟨none, []⟩ "k" "x").1 "k" "y").1 "k" = some "y" :=
  index_nodup_preserved secret_storage stdBackend ⟨none, []⟩ "k" "s" "x" "y"
    (by decide) (by decide) (by decide) (by decide)

/-- C9: the iteration sequence contains exactly the pairs (key, secret) with
the key tracked and get_secret returning the non-empty secret, and it is
finite — never longer than the index it re-reads. -/
theorem iterPairs_characterization (self : SecretStorage) (w : World)
    (key secret : String) :
    ((key, secret) ∈ self.iterPairs w ↔
      key ∈ self.keys w ∧ self.get_secret w key = some secret ∧ secret ≠ "") ∧
    (self.iterPairs w).length ≤ (self.keys w).length := by
  constructor
  · unfold SecretStorage.iterPairs
    rw [List.mem_filterMap]
    constructor
    · rintro ⟨a, ha, hfa⟩
      cases hga : self.get_secret w a with
      | none =>
        rw [hga] at hfa
        cases hfa
      | some s =>
        rw [hga] at hfa
        by_cases hs : s = ""
        · simp [hs] at hfa
        · simp [hs] at hfa
          obtain ⟨rfl, rfl⟩ := hfa
          exact ⟨ha, hga, hs⟩
    · rintro ⟨hmem, hget, hne⟩
      exact ⟨key, hmem, by simp [hget, hne]⟩
  · exact List.length_filterMap_le _ _

/-- C10: _delete_secret returns False for the empty key without any OS call,
and delete_secret of the untracked empty string changes nothing, performs no
OS-store operation, and reports failure as False rather than raising. -/
theorem deleteSecret_empty_key_guard (self : SecretStorage) (b : DeleteBackend)
    (w : World) (os : OsStore) (h : "" ∉ self.keys w) :
    self.delete_secret b w "" = (w, Except.ok false, []) ∧
    _delete_secret b os "" = (os, Except.ok false, []) := by
  constructor
  · simp [SecretStorage.delete_secret, h, _delete_secret]
  · simp [_delete_secret]

/-- C10 witness at the empty state and empty OS store. -/
theorem deleteSecret_empty_key_guard_witness :
    secret_storage.delete_secret stdBackend ⟨none, []⟩ "" =
      (⟨none, []⟩, Except.ok false, []) ∧
    _delete_secret stdBackend [] "" = ([], Except.ok false, []) :=
  deleteSecret_empty_key_guard secret_storage stdBackend ⟨none, []⟩ []
    (by decide)

end ApeKeyring
